import Mathlib

/-!
Shallow embedding of the SunSpec inverter gateway
(src/src/sunspec_client.py, src/src/gateway.py, src/src/config.py)
together with proofs about its session, polling and snapshot behaviour.

Conventions of the embedding:
* Python dicts keyed by model id (the gateway keys them by the string
  "model_<id>", which is in bijection with the id) are association lists
  `List (Nat × _)`; dict assignment `d[k] = v` is `dictInsert`, whose
  lookup semantics agree with the Python dict.
* Wall-clock readings of `datetime.now()` are an abstract `Nat` tick
  passed in as `now`.
* The pySunSpec2 device object is a `Device` holding the integer-keyed
  entries of `device.models` (model id, model name of the first
  instance); a model id whose instance list is empty is treated as
  absent, exactly as both corresponding branches of `read_model`
  return the empty dict.
* The outcome of one wire-level `model.read()` is an oracle
  `ReadOracle : Nat → Option Points`: `none` means the read raised,
  `some pts` means it delivered the point map `pts`.
-/

namespace SunspecGateway

/-- Point map of one model reading: point name to (scaled) value. -/
abbrev Points := List (String × Int)

/-- Oracle giving the outcome of the wire read of one model:
`none` when `model.read()` raises, `some pts` when it succeeds. -/
abbrev ReadOracle := Nat → Option Points

/-- The dict built by SunSpecClient.read_model on a successful read:
model_id, model_name, point map, capture timestamp. -/
structure ModelReading where
  model_id : Nat
  model_name : String
  points : Points
  timestamp : Nat
deriving Repr, DecidableEq

/-- A Python dict value returned by read_model: the empty dict or a
populated reading dict. Truthiness distinguishes the two. -/
inductive PyDict where
  | empty
  | reading (r : ModelReading)
deriving Repr, DecidableEq

/-- Python truthiness of the read_model result dict. -/
def PyDict.truthy : PyDict → Bool
  | .empty => false
  | .reading _ => true

/-- The pySunSpec2 device handle: the integer-keyed entries of its
`models` table, as pairs of model id and first-instance model name. -/
structure Device where
  models : List (Nat × String)
deriving Repr, DecidableEq

/-- DataCollectionConfig from src/src/config.py (pydantic defaults:
poll_interval 30, models_to_read [1, 103, 160, 113], max_retries 3,
retry_delay 5). -/
structure DataCollectionConfig where
  poll_interval : Int
  models_to_read : List Nat
  max_retries : Nat
  retry_delay : Nat
deriving Repr, DecidableEq

/-- Default DataCollectionConfig of src/src/config.py. -/
def defaultDataCollectionConfig : DataCollectionConfig :=
  { poll_interval := 30, models_to_read := [1, 103, 160, 113],
    max_retries := 3, retry_delay := 5 }

/-- Connection type of InverterConfig: tcp or rtu. -/
inductive ConnectionType where
  | tcp
  | rtu
deriving Repr, DecidableEq

/-- The slice of Config that the client logic consults: the connection
type, whether the tcp/rtu sub-configs are present, and the data
collection settings. -/
structure Config where
  connection_type : ConnectionType
  tcp_present : Bool
  rtu_present : Bool
  data_collection : DataCollectionConfig
deriving Repr, DecidableEq

/-- Mutable state of a SunSpecClient instance:
config, device handle, is_connected flag, discovered model registry
(available_models), client-level cache (cached_data) and
last_read_time. -/
structure ClientState where
  config : Config
  device : Option Device
  is_connected : Bool
  available_models : List (Nat × String)
  cached_data : List (Nat × ModelReading)
  last_read_time : Option Nat
deriving Repr, DecidableEq

/-- Whether SunSpecClient.read_model would issue an actual wire read
(`model.read()`) for this id: the device handle exists and the id is in
the device's model table. -/
def wireReadIssued (st : ClientState) (mid : Nat) : Bool :=
  match st.device with
  | none => false
  | some dev => (dev.models.lookup mid).isSome

/-- Whether the wire read for this id both happens and succeeds. -/
def readSuccess (st : ClientState) (oracle : ReadOracle) (mid : Nat) : Bool :=
  match st.device with
  | none => false
  | some dev => (dev.models.lookup mid).isSome && (oracle mid).isSome

/-- The reading dict read_model builds on success: model_id, the name
from available_models (defaulting to "Model_<id>"), the point map from
the wire read, and the capture timestamp. -/
def mkSuccess (st : ClientState) (oracle : ReadOracle) (now mid : Nat) : ModelReading :=
  { model_id := mid
    model_name := (st.available_models.lookup mid).getD ("Model_" ++ toString mid)
    points := (oracle mid).getD []
    timestamp := now }

/-- Embedding of SunSpecClient.read_model. Every return statement of
the Python function yields a dict (the empty dict when the device is
missing, the id is not in device.models, the instance list is empty, or
the wire read raises), never None; the codomain keeps the Option layer
because the gateway's /data/model route tests the result against None. -/
def read_model (st : ClientState) (oracle : ReadOracle) (now mid : Nat) : Option PyDict :=
  match st.device with
  | none => some .empty
  | some dev =>
    match dev.models.lookup mid with
    | none => some .empty
    | some _ =>
      match oracle mid with
      | none => some .empty
      | some pts =>
        some (.reading
          { model_id := mid
            model_name := (st.available_models.lookup mid).getD ("Model_" ++ toString mid)
            points := pts
            timestamp := now })

/-- A successful read presupposes that a wire read was issued. -/
theorem wireReadIssued_of_readSuccess (st : ClientState) (oracle : ReadOracle) (mid : Nat)
    (h : readSuccess st oracle mid = true) : wireReadIssued st mid = true := by
  unfold readSuccess at h
  unfold wireReadIssued
  cases hdev : st.device with
  | none => rw [hdev] at h; exact absurd h (by simp)
  | some dev =>
    rw [hdev] at h
    exact (Bool.and_eq_true_iff.mp h).1

/-- Characterisation of read_model: always a dict, populated exactly on
a successful wire read. -/
theorem read_model_spec (st : ClientState) (oracle : ReadOracle) (now mid : Nat) :
    read_model st oracle now mid =
      some (if readSuccess st oracle mid then PyDict.reading (mkSuccess st oracle now mid)
            else PyDict.empty) := by
  unfold read_model readSuccess mkSuccess
  cases hdev : st.device with
  | none => simp
  | some dev =>
    cases hlook : dev.models.lookup mid with
    | none => simp [hlook]
    | some nm =>
      cases horacle : oracle mid with
      | none => simp [hlook, horacle]
      | some pts => simp [hlook, horacle]

/-- Inner accumulation of SunSpecClient.read_data over the model-id
list: builds the fresh data dict (only truthy read_model results are
stored) and records which ids incurred a wire read. A model id that is
not a key of available_models is skipped before any read; a failed read
contributes nothing and the loop continues with the next id. -/
def read_data_loop (st : ClientState) (oracle : ReadOracle) (now : Nat) :
    List Nat → List (Nat × ModelReading) × List Nat
  | [] => ([], [])
  | mid :: rest =>
    let r := read_data_loop st oracle now rest
    if (st.available_models.lookup mid).isSome then
      let att := if wireReadIssued st mid then mid :: r.2 else r.2
      match read_model st oracle now mid with
      | some (.reading d) => ((mid, d) :: r.1, att)
      | _ => (r.1, att)
    else r

/-- Result of one read_data call: the updated client state, the freshly
built data dict, and the ids for which a wire read was issued. -/
structure ReadDataResult where
  state : ClientState
  data : List (Nat × ModelReading)
  attempted : List Nat
deriving Repr, DecidableEq

/-- Embedding of SunSpecClient.read_data: raises ("Device not
connected") unless connected with a device handle; otherwise reads the
requested models (defaulting to the configured list), then replaces
cached_data with the fresh dict and stamps last_read_time. -/
def read_data (st : ClientState) (oracle : ReadOracle) (now : Nat)
    (model_ids : Option (List Nat)) : Except String ReadDataResult :=
  if st.is_connected = false ∨ st.device = none then .error "Device not connected"
  else
    let mids := model_ids.getD st.config.data_collection.models_to_read
    let r := read_data_loop st oracle now mids
    .ok { state := { st with cached_data := r.1, last_read_time := some now }
          data := r.1
          attempted := r.2 }

/-- Step equation for the read_data accumulation, with the read_model
call resolved through the oracle. -/
theorem read_data_loop_cons (st : ClientState) (oracle : ReadOracle) (now mid : Nat)
    (rest : List Nat) :
    read_data_loop st oracle now (mid :: rest) =
      if (st.available_models.lookup mid).isSome then
        (if readSuccess st oracle mid then
          ((mid, mkSuccess st oracle now mid) :: (read_data_loop st oracle now rest).1,
            mid :: (read_data_loop st oracle now rest).2)
         else ((read_data_loop st oracle now rest).1,
            if wireReadIssued st mid then mid :: (read_data_loop st oracle now rest).2
            else (read_data_loop st oracle now rest).2))
      else read_data_loop st oracle now rest := by
  show (if (st.available_models.lookup mid).isSome then _ else _) = _
  cases havail : (st.available_models.lookup mid).isSome with
  | false => simp [havail]
  | true =>
    cases hsucc : readSuccess st oracle mid with
    | false =>
      simp only [havail, if_true, Bool.false_eq_true, if_false]
      rw [read_model_spec, hsucc]
      simp
    | true =>
      have hwire := wireReadIssued_of_readSuccess st oracle mid hsucc
      simp only [havail, if_true]
      rw [read_model_spec, hsucc]
      simp [hwire]

/-- Lookup in the data dict built by one read_data pass: an id maps to
its fresh reading exactly when it is requested, discovered, and its
wire read succeeded. -/
theorem read_data_loop_lookup (st : ClientState) (oracle : ReadOracle) (now : Nat)
    (mids : List Nat) (m : Nat) :
    (read_data_loop st oracle now mids).1.lookup m =
      if m ∈ mids ∧ (st.available_models.lookup m).isSome = true ∧
          readSuccess st oracle m = true
      then some (mkSuccess st oracle now m) else none := by
  induction mids with
  | nil => simp [read_data_loop]
  | cons mid rest ih =>
    rw [read_data_loop_cons]
    by_cases hm : m = mid
    · subst hm
      cases havail : (st.available_models.lookup m).isSome with
      | false => simp [havail, ih]
      | true =>
        cases hsucc : readSuccess st oracle m with
        | false => simp [havail, hsucc, ih]
        | true => simp [havail, hsucc, List.lookup]
    · have hbeq : (m == mid) = false := by simp [hm]
      have hiff : (m ∈ rest ∧ (st.available_models.lookup m).isSome = true ∧
            readSuccess st oracle m = true) ↔
          (m ∈ mid :: rest ∧ (st.available_models.lookup m).isSome = true ∧
            readSuccess st oracle m = true) := by
        simp [List.mem_cons, hm]
      cases havail : (st.available_models.lookup mid).isSome with
      | false =>
        simp only [havail, Bool.false_eq_true, if_false]
        rw [ih]
        exact if_congr hiff rfl rfl
      | true =>
        cases hsucc : readSuccess st oracle mid with
        | false =>
          simp only [havail, if_true, Bool.false_eq_true, if_false]
          rw [ih]
          exact if_congr hiff rfl rfl
        | true =>
          simp only [havail, hsucc, if_true, List.lookup, hbeq]
          rw [ih]
          exact if_congr hiff rfl rfl

/-- The set of wire reads issued by one read_data pass: exactly the
requested ids that are both discovered and present on the device. -/
theorem read_data_loop_attempted (st : ClientState) (oracle : ReadOracle) (now : Nat)
    (mids : List Nat) :
    (read_data_loop st oracle now mids).2 =
      mids.filter (fun m => (st.available_models.lookup m).isSome && wireReadIssued st m) := by
  induction mids with
  | nil => simp [read_data_loop]
  | cons mid rest ih =>
    rw [read_data_loop_cons, List.filter_cons]
    cases havail : (st.available_models.lookup mid).isSome with
    | false => simp [havail, ih]
    | true =>
      cases hwire : wireReadIssued st mid with
      | false =>
        have hsucc : readSuccess st oracle mid = false := by
          cases h : readSuccess st oracle mid with
          | false => rfl
          | true => rw [wireReadIssued_of_readSuccess st oracle mid h] at hwire; cases hwire
        simp [havail, hsucc, hwire, ih]
      | true =>
        cases hsucc : readSuccess st oracle mid with
        | false => simp [havail, hsucc, hwire, ih]
        | true => simp [havail, hsucc, hwire, ih]

/-- Every entry of the fresh data dict is the successful reading of its
own key. -/
theorem read_data_loop_entries (st : ClientState) (oracle : ReadOracle) (now : Nat)
    (mids : List Nat) :
    ∀ kv ∈ (read_data_loop st oracle now mids).1, kv.2 = mkSuccess st oracle now kv.1 := by
  induction mids with
  | nil => simp [read_data_loop]
  | cons mid rest ih =>
    rw [read_data_loop_cons]
    cases havail : (st.available_models.lookup mid).isSome with
    | false => simpa [havail] using ih
    | true =>
      cases hsucc : readSuccess st oracle mid with
      | false => simpa [havail, hsucc] using ih
      | true =>
        simp only [havail, hsucc, if_true]
        intro kv hkv
        rcases List.mem_cons.mp hkv with h | h
        · rw [h]
        · exact ih kv h

/-- Embedding of SunSpecClient.get_cached_data: the report dict built
from cached_data, last_read_time and available_models. -/
structure CachedDataView where
  data : List (Nat × ModelReading)
  last_read_time : Option Nat
  available_models : List (Nat × String)
deriving Repr, DecidableEq

/-- Embedding of SunSpecClient.get_cached_data. -/
def get_cached_data (st : ClientState) : CachedDataView :=
  { data := st.cached_data
    last_read_time := st.last_read_time
    available_models := st.available_models }

/-- Key-value overwrite on an association list, with the lookup
semantics of the Python dict assignment d[k] = v. -/
def dictInsert (d : List (Nat × ModelReading)) (k : Nat) (v : ModelReading) :
    List (Nat × ModelReading) :=
  (k, v) :: d.filter (fun p => p.1 ≠ k)

/-- Filtering out the entries of one key leaves lookups of every other
key unchanged. -/
theorem lookup_filter_ne (d : List (Nat × ModelReading)) (k k' : Nat) (h : k' ≠ k) :
    (d.filter (fun p => p.1 ≠ k)).lookup k' = d.lookup k' := by
  induction d with
  | nil => rfl
  | cons p rest ih =>
    rcases p with ⟨a, b⟩
    by_cases ha : a = k
    · have hfa : (decide ((a, b).1 ≠ k)) = false := by simp [ha]
      have hab : (k' == a) = false := by
        rw [ha]
        simp [h]
      simp only [List.filter_cons, hfa, Bool.false_eq_true, if_false]
      rw [ih]
      simp only [List.lookup, hab]
    · have hfa : (decide ((a, b).1 ≠ k)) = true := by simp [ha]
      simp only [List.filter_cons, hfa, if_true]
      simp only [List.lookup]
      cases hab : (k' == a) with
      | true => rfl
      | false => exact ih

/-- Lookup after a dict overwrite. -/
theorem lookup_dictInsert (d : List (Nat × ModelReading)) (k : Nat) (v : ModelReading)
    (k' : Nat) :
    (dictInsert d k v).lookup k' = if k' = k then some v else d.lookup k' := by
  by_cases h : k' = k
  · simp [dictInsert, List.lookup, h]
  · have hbeq : (k' == k) = false := by simp [h]
    simp only [dictInsert, List.lookup, hbeq, if_neg h]
    exact lookup_filter_ne d k k' h

/-- The for-loop of the polling engine writing one cycle's results into
last_data: for each key of the fresh data dict, overwrite that entry. -/
def updateLastData (old data : List (Nat × ModelReading)) : List (Nat × ModelReading) :=
  data.foldl (fun acc kv => dictInsert acc kv.1 kv.2) old

/-- Snapshot update semantics: when every entry of the written dict is
a deterministic function of its key, an entry of the updated table is
the fresh value exactly for written keys and the prior value otherwise. -/
theorem lookup_updateLastData (old data : List (Nat × ModelReading))
    (f : Nat → ModelReading) (hf : ∀ kv ∈ data, kv.2 = f kv.1) (k : Nat) :
    (updateLastData old data).lookup k =
      if (data.lookup k).isSome then some (f k) else old.lookup k := by
  induction data generalizing old with
  | nil => simp [updateLastData]
  | cons kv rest ih =>
    rcases kv with ⟨a, b⟩
    have hb : b = f a := hf (a, b) (List.mem_cons_self (a, b) rest)
    have hrest : ∀ p ∈ rest, p.2 = f p.1 := fun p hp => hf p (List.mem_cons_of_mem (a, b) hp)
    show (updateLastData (dictInsert old a b) rest).lookup k = _
    rw [ih (dictInsert old a b) hrest]
    have hcons : List.lookup k ((a, b) :: rest) =
        if k = a then some b else List.lookup k rest := by
      by_cases hk : k = a
      · simp [List.lookup, hk]
      · have hbeq : (k == a) = false := by simp [hk]
        simp [List.lookup, hbeq, hk]
    rw [hcons]
    by_cases hk : k = a
    · cases hsome : (List.lookup k rest).isSome with
      | false => simp [hsome, lookup_dictInsert, hk, hb]
      | true => simp [hsome, hk]
    · cases hsome : (List.lookup k rest).isSome with
      | false => simp [hsome, lookup_dictInsert, hk]
      | true => simp [hsome, hk]

/-- Gateway-level mutable state (SunSpecGateway): the owned client, the
gateway's own is_connected flag, the Snapshot Table last_data, and
whether a polling task handle is held. -/
structure GatewayState where
  client : ClientState
  is_connected : Bool
  last_data : List (Nat × ModelReading)
  polling_task : Bool
deriving Repr, DecidableEq

/-- The fixed back-off slept by the polling loop after an unexpected
error in the loop body (the literal 5 in asyncio.sleep(5)). -/
def pollingBackoff : Int := 5

/-- Outcome of one pass of the while-loop of _polling_loop: either the
loop continues after sleeping, or it breaks out. -/
inductive LoopStep where
  | continueAfter (g : GatewayState) (sleptFor : Int)
  | exitLoop
deriving Repr, DecidableEq

/-- Embedding of one iteration of SunSpecGateway._polling_loop:
a CancelledError breaks the loop; otherwise read_data runs over the
configured models, a truthy result dict is folded into last_data, and
the loop sleeps poll_interval; an exception escaping read_data is
logged and the loop sleeps the fixed back-off instead. -/
def polling_iteration (g : GatewayState) (oracle : ReadOracle) (now : Nat)
    (cancelled : Bool) : LoopStep :=
  if cancelled then .exitLoop
  else
    match read_data g.client oracle now
        (some g.client.config.data_collection.models_to_read) with
    | .error _ => .continueAfter g pollingBackoff
    | .ok res =>
      .continueAfter
        { g with client := res.state, last_data := updateLastData g.last_data res.data }
        g.client.config.data_collection.poll_interval

/-- Status results of the embedded REST routes. -/
inductive HttpResult (α : Type) where
  | ok (body : α)
  | error (status : Nat) (detail : String)
deriving Repr, DecidableEq

/-- Response body of the /data/model route on its success path. -/
structure ModelDataResponse where
  model_id : Nat
  points : PyDict
  timestamp : Nat
deriving Repr, DecidableEq

/-- Embedding of the GET /data/live route: 503 when the gateway flag is
down, 404 when last_data is empty, otherwise the whole Snapshot
Table. -/
def get_live_data (g : GatewayState) : HttpResult (List (Nat × ModelReading)) :=
  if g.is_connected = false then .error 503 "Device not connected"
  else if g.last_data.isEmpty then .error 404 "No data available"
  else .ok g.last_data

/-- Embedding of the GET /data/model route: 503 when not connected;
then an on-demand read_model, whose result is tested against None
(the 404 branch) before being wrapped in a success body. -/
def get_model_data (g : GatewayState) (oracle : ReadOracle) (now mid : Nat) :
    HttpResult ModelDataResponse :=
  if g.is_connected = false then .error 503 "Device not connected"
  else
    match read_model g.client oracle now mid with
    | none => .error 404 "Model not found"
    | some d => .ok { model_id := mid, points := d, timestamp := now }

/-- Environment of one connect attempt: whether the modbus device
constructor succeeds, and the outcome of the discovery scan (`none`
when the scan raises; otherwise the integer-keyed model table the scan
leaves in device.models, with first-instance names). -/
structure ConnectEnv where
  transportOk : Bool
  scanResult : Option (List (Nat × String))
deriving Repr, DecidableEq

/-- The device object as freshly constructed, before any scan has
populated its model table. -/
def freshDevice : Device := { models := [] }

/-- Outcome of SunSpecClient.connect: the state it leaves behind, the
boolean it returns (the function catches every exception and never
raises to its caller), and a trace of whether it constructed a new
transport object, ran a discovery scan, or issued any close call. -/
structure ConnectOutcome where
  state : ClientState
  returned : Bool
  openedNewTransport : Bool
  performedDiscovery : Bool
  closedTransport : Bool
deriving Repr, DecidableEq

/-- Embedding of SunSpecClient.connect. The function consults only the
configured connection type; it never checks is_connected, so it runs
identically on an already-connected client. On the tcp path: a missing
tcp sub-config or a failing constructor raises before any mutation of
device; otherwise device is replaced by the fresh object and discovery
runs, whose failure is caught by the outer handler with every earlier
mutation kept; no branch ever closes a transport. The rtu path mirrors
it. -/
def connect (st : ClientState) (env : ConnectEnv) : ConnectOutcome :=
  match st.config.connection_type with
  | .tcp =>
    if st.config.tcp_present = false then
      { state := { st with is_connected := false }, returned := false
        openedNewTransport := false, performedDiscovery := false, closedTransport := false }
    else if env.transportOk = false then
      { state := { st with is_connected := false }, returned := false
        openedNewTransport := false, performedDiscovery := false, closedTransport := false }
    else
      match env.scanResult with
      | none =>
        { state := { st with device := some freshDevice, is_connected := false }
          returned := false, openedNewTransport := true
          performedDiscovery := true, closedTransport := false }
      | some tbl =>
        let st2 : ClientState :=
          { st with device := some { models := tbl }, available_models := tbl, is_connected := true }
        { state := st2, returned := true, openedNewTransport := true
          performedDiscovery := true, closedTransport := false }
  | .rtu =>
    if st.config.rtu_present = false then
      { state := { st with is_connected := false }, returned := false
        openedNewTransport := false, performedDiscovery := false, closedTransport := false }
    else if env.transportOk = false then
      { state := { st with is_connected := false }, returned := false
        openedNewTransport := false, performedDiscovery := false, closedTransport := false }
    else
      match env.scanResult with
      | none =>
        { state := { st with device := some freshDevice, is_connected := false }
          returned := false, openedNewTransport := true
          performedDiscovery := true, closedTransport := false }
      | some tbl =>
        let st2 : ClientState :=
          { st with device := some { models := tbl }, available_models := tbl, is_connected := true }
        { state := st2, returned := true, openedNewTransport := true
          performedDiscovery := true, closedTransport := false }

/-- Outcome of SunSpecClient.disconnect: the resulting state and
whether a transport close was issued. -/
structure DisconnectOutcome where
  state : ClientState
  closedTransport : Bool
deriving Repr, DecidableEq

/-- Embedding of SunSpecClient.disconnect: when a device handle exists,
close it (errors are caught) and in the finally block drop the handle
and lower is_connected; with no handle, nothing happens. Neither
available_models nor cached_data is touched. -/
def client_disconnect (st : ClientState) : DisconnectOutcome :=
  match st.device with
  | none => { state := st, closedTransport := false }
  | some _ =>
    { state := { st with device := none, is_connected := false }, closedTransport := true }

/-- Outcome of the POST /device/connect route: the new gateway state,
whether a new polling task was created, and the connected flag of the
response body. -/
structure ConnectDeviceOutcome where
  gateway : GatewayState
  startedNewTask : Bool
  connectedResponse : Bool
deriving Repr, DecidableEq

/-- Embedding of the POST /device/connect route: unconditionally calls
client.connect, copies its result into the gateway flag, and creates a
polling task only when the connect succeeded and no task handle is
held. -/
def connect_device (g : GatewayState) (env : ConnectEnv) : ConnectDeviceOutcome :=
  let out := connect g.client env
  let g1 : GatewayState := { g with client := out.state, is_connected := out.returned }
  if out.returned = true ∧ g.polling_task = false then
    { gateway := { g1 with polling_task := true }, startedNewTask := true
      connectedResponse := out.returned }
  else
    { gateway := g1, startedNewTask := false, connectedResponse := out.returned }

/-- Observable teardown actions, in program order: requesting
cancellation of the polling task, awaiting the cancelled task to
completion, closing the transport. -/
inductive TeardownEvent where
  | cancelPollingTask
  | awaitPollingTask
  | closeTransport
deriving Repr, DecidableEq

/-- Teardown actions of SunSpecClient.disconnect: a close exactly when
a device handle exists. -/
def client_disconnect_events (hasDevice : Bool) : List TeardownEvent :=
  if hasDevice then [.closeTransport] else []

/-- Teardown actions of SunSpecGateway.shutdown in program order: when
a polling task is held, cancel it and await it; then client.disconnect
closes the transport. -/
def shutdown_events (hasPollingTask hasDevice : Bool) : List TeardownEvent :=
  (if hasPollingTask then [.cancelPollingTask, .awaitPollingTask] else []) ++
    client_disconnect_events hasDevice

/-- Teardown actions of the POST /device/disconnect route in program
order: when a polling task is held, cancel it (the task handle is
dropped without being awaited); then client.disconnect closes the
transport. -/
def disconnect_device_events (hasPollingTask hasDevice : Bool) : List TeardownEvent :=
  (if hasPollingTask then [.cancelPollingTask] else []) ++
    client_disconnect_events hasDevice

/-- A connected client with a device handle makes read_data take its
success path. -/
theorem read_data_ok (st : ClientState) (oracle : ReadOracle) (now : Nat)
    (ids : Option (List Nat)) (hconn : st.is_connected = true) (hdev : st.device ≠ none) :
    read_data st oracle now ids =
      .ok { state :=
              { st with
                cached_data :=
                  (read_data_loop st oracle now
                    (ids.getD st.config.data_collection.models_to_read)).1
                last_read_time := some now }
            data :=
              (read_data_loop st oracle now
                (ids.getD st.config.data_collection.models_to_read)).1
            attempted :=
              (read_data_loop st oracle now
                (ids.getD st.config.data_collection.models_to_read)).2 } := by
  unfold read_data
  have hguard : ¬ (st.is_connected = false ∨ st.device = none) := by
    rintro (h | h)
    · rw [hconn] at h
      cases h
    · exact hdev h
  rw [if_neg hguard]

/-- When read_data yields a result, one polling iteration without a
cancellation folds it into last_data and sleeps the poll interval. -/
theorem polling_iteration_ok (g : GatewayState) (oracle : ReadOracle) (now : Nat)
    (res : ReadDataResult)
    (h : read_data g.client oracle now
        (some g.client.config.data_collection.models_to_read) = .ok res) :
    polling_iteration g oracle now false =
      .continueAfter
        { g with client := res.state, last_data := updateLastData g.last_data res.data }
        g.client.config.data_collection.poll_interval := by
  simp only [polling_iteration, Bool.false_eq_true, if_false, h]

/-- When read_data raises, one polling iteration without a cancellation
leaves the gateway unchanged and sleeps the fixed back-off. -/
theorem polling_iteration_error (g : GatewayState) (oracle : ReadOracle) (now : Nat)
    (e : String)
    (h : read_data g.client oracle now
        (some g.client.config.data_collection.models_to_read) = .error e) :
    polling_iteration g oracle now false = .continueAfter g pollingBackoff := by
  simp only [polling_iteration, Bool.false_eq_true, if_false, h]

/-- Example configuration polling models 1 and 101 every 30 seconds
over tcp. -/
def exampleConfig : Config :=
  { connection_type := .tcp, tcp_present := true, rtu_present := false
    data_collection :=
      { poll_interval := 30, models_to_read := [1, 101], max_retries := 3, retry_delay := 5 } }

/-- Example device exposing the common model 1 and inverter model 101. -/
def exampleDevice : Device := { models := [(1, "Common"), (101, "Inverter")] }

/-- Example connected client that has discovered both models. -/
def exampleClient : ClientState :=
  { config := exampleConfig, device := some exampleDevice, is_connected := true
    available_models := [(1, "Common"), (101, "Inverter")]
    cached_data := [], last_read_time := none }

/-- Example oracle: the wire read of model 1 delivers a point map and
every other wire read raises. -/
def exampleOracle : ReadOracle := fun mid => if mid = 1 then some [("W", 1500)] else none

/-- Oracle where every wire read raises. -/
def failingOracle : ReadOracle := fun _ => none

/-- A reading of model 101 captured by an earlier cycle at tick 1. -/
def priorReading : ModelReading :=
  { model_id := 101, model_name := "Inverter", points := [("W", 1400)], timestamp := 1 }

/-- Example gateway mid-session: connected, polling task running, and a
Snapshot Table holding an earlier reading of model 101. -/
def exampleGateway : GatewayState :=
  { client := exampleClient, is_connected := true
    last_data := [(101, priorReading)], polling_task := true }

/-- C1: within one poll cycle, a successful read of model B overwrites
exactly B's Snapshot Table entry with the fresh value and timestamp,
while failed model A's prior entry is untouched, and the cycle attempts
every configured discovered model and ends by sleeping the poll
interval rather than aborting. -/
theorem snapshot_failure_isolation (g : GatewayState) (oracle : ReadOracle) (now : Nat)
    (A B : Nat) (dev : Device)
    (hconn : g.client.is_connected = true)
    (hdev : g.client.device = some dev)
    (hAfail : readSuccess g.client oracle A = false)
    (hBcfg : B ∈ g.client.config.data_collection.models_to_read)
    (hBavail : (g.client.available_models.lookup B).isSome = true)
    (hBsucc : readSuccess g.client oracle B = true) :
    ∃ res : ReadDataResult,
      read_data g.client oracle now
          (some g.client.config.data_collection.models_to_read) = .ok res ∧
      res.attempted = (g.client.config.data_collection.models_to_read).filter
        (fun m => (g.client.available_models.lookup m).isSome && wireReadIssued g.client m) ∧
      polling_iteration g oracle now false =
        .continueAfter
          { g with client := res.state, last_data := updateLastData g.last_data res.data }
          g.client.config.data_collection.poll_interval ∧
      (updateLastData g.last_data res.data).lookup A = g.last_data.lookup A ∧
      (updateLastData g.last_data res.data).lookup B =
        some (mkSuccess g.client oracle now B) ∧
      (mkSuccess g.client oracle now B).timestamp = now := by
  have hdevne : g.client.device ≠ none := by simp [hdev]
  have hok := read_data_ok g.client oracle now
    (some g.client.config.data_collection.models_to_read) hconn hdevne
  refine ⟨_, hok, ?_, polling_iteration_ok g oracle now _ hok, ?_, ?_, rfl⟩
  · exact read_data_loop_attempted g.client oracle now _
  · have hupd := lookup_updateLastData g.last_data
      (read_data_loop g.client oracle now g.client.config.data_collection.models_to_read).1
      (mkSuccess g.client oracle now)
      (read_data_loop_entries g.client oracle now _) A
    rw [read_data_loop_lookup] at hupd
    simpa [hAfail] using hupd
  · have hupd := lookup_updateLastData g.last_data
      (read_data_loop g.client oracle now g.client.config.data_collection.models_to_read).1
      (mkSuccess g.client oracle now)
      (read_data_loop_entries g.client oracle now _) B
    rw [read_data_loop_lookup] at hupd
    simpa [hBcfg, hBavail, hBsucc] using hupd

/-- Witness instantiating C1: at tick 5, model 101's read fails and
model 1's succeeds; 101 keeps its cycle-1 reading and 1 gets the fresh
tick-5 reading. -/
theorem snapshot_failure_isolation_witness :
    ∃ res : ReadDataResult,
      read_data exampleGateway.client exampleOracle 5
          (some exampleGateway.client.config.data_collection.models_to_read) = .ok res ∧
      res.attempted = (exampleGateway.client.config.data_collection.models_to_read).filter
        (fun m => (exampleGateway.client.available_models.lookup m).isSome &&
          wireReadIssued exampleGateway.client m) ∧
      polling_iteration exampleGateway exampleOracle 5 false =
        .continueAfter
          { exampleGateway with
            client := res.state
            last_data := updateLastData exampleGateway.last_data res.data }
          exampleGateway.client.config.data_collection.poll_interval ∧
      (updateLastData exampleGateway.last_data res.data).lookup 101 =
        exampleGateway.last_data.lookup 101 ∧
      (updateLastData exampleGateway.last_data res.data).lookup 1 =
        some (mkSuccess exampleGateway.client exampleOracle 5 1) ∧
      (mkSuccess exampleGateway.client exampleOracle 5 1).timestamp = 5 :=
  snapshot_failure_isolation exampleGateway exampleOracle 5 101 1 exampleDevice rfl rfl
    (by decide) (by decide) (by decide) (by decide)

/-- Example configuration that polls model 103 although the device
never exposed it to discovery. -/
def gatingConfig : Config :=
  { connection_type := .tcp, tcp_present := true, rtu_present := false
    data_collection :=
      { poll_interval := 30, models_to_read := [1, 103], max_retries := 3, retry_delay := 5 } }

/-- Client whose discovery found only model 1, with model 103 still in
the poll configuration. -/
def gatingClient : ClientState :=
  { config := gatingConfig, device := some exampleDevice, is_connected := true
    available_models := [(1, "Common")]
    cached_data := [], last_read_time := none }

/-- Gateway for the discovery-gating scenario, before any cycle. -/
def gatingGateway : GatewayState :=
  { client := gatingClient, is_connected := true, last_data := [], polling_task := true }

/-- C7: a model id absent from the discovered registry incurs no wire
read during a cycle, contributes nothing to the fresh data dict, and
its Snapshot Table entry (in particular its absence) is preserved. -/
theorem discovery_gating (g : GatewayState) (oracle : ReadOracle) (now : Nat) (m : Nat)
    (dev : Device)
    (hconn : g.client.is_connected = true)
    (hdev : g.client.device = some dev)
    (hm : (g.client.available_models.lookup m).isSome = false) :
    ∃ res : ReadDataResult,
      read_data g.client oracle now
          (some g.client.config.data_collection.models_to_read) = .ok res ∧
      m ∉ res.attempted ∧
      res.data.lookup m = none ∧
      (updateLastData g.last_data res.data).lookup m = g.last_data.lookup m := by
  have hdevne : g.client.device ≠ none := by simp [hdev]
  have hok := read_data_ok g.client oracle now
    (some g.client.config.data_collection.models_to_read) hconn hdevne
  refine ⟨_, hok, ?_, ?_, ?_⟩
  · show m ∉ (read_data_loop g.client oracle now
      ((some g.client.config.data_collection.models_to_read).getD
        g.client.config.data_collection.models_to_read)).2
    rw [read_data_loop_attempted]
    intro hmem
    rcases List.mem_filter.mp hmem with ⟨-, hcond⟩
    rw [hm] at hcond
    simp at hcond
  · show (read_data_loop g.client oracle now
      ((some g.client.config.data_collection.models_to_read).getD
        g.client.config.data_collection.models_to_read)).1.lookup m = none
    rw [read_data_loop_lookup]
    simp [hm]
  · have hupd := lookup_updateLastData g.last_data
      (read_data_loop g.client oracle now g.client.config.data_collection.models_to_read).1
      (mkSuccess g.client oracle now)
      (read_data_loop_entries g.client oracle now _) m
    rw [read_data_loop_lookup] at hupd
    simpa [hm] using hupd

/-- Witness instantiating C7: configured model 103 is not in the
registry; a cycle at tick 9 issues no wire read for it and the empty
Snapshot Table stays without an entry for it. -/
theorem discovery_gating_witness :
    ∃ res : ReadDataResult,
      read_data gatingGateway.client exampleOracle 9
          (some gatingGateway.client.config.data_collection.models_to_read) = .ok res ∧
      103 ∉ res.attempted ∧
      res.data.lookup 103 = none ∧
      (updateLastData gatingGateway.last_data res.data).lookup 103 =
        gatingGateway.last_data.lookup 103 :=
  discovery_gating gatingGateway exampleOracle 9 103 exampleDevice rfl rfl (by decide)

/-- Gateway whose connected flag is down. -/
def gwDisconnected : GatewayState :=
  { client := exampleClient, is_connected := false, last_data := [], polling_task := false }

/-- Gateway just after a successful connect, before the first poll
cycle has produced data. -/
def gwConnectedEmpty : GatewayState :=
  { client := exampleClient, is_connected := true, last_data := [], polling_task := true }

/-- C8: the /data/live route answers 503 when not connected, 404 when
connected with an empty Snapshot Table, and the full Snapshot Table
otherwise. -/
theorem live_data_route_status (g : GatewayState) :
    (g.is_connected = false → get_live_data g = .error 503 "Device not connected") ∧
    (g.is_connected = true → g.last_data = [] →
      get_live_data g = .error 404 "No data available") ∧
    (g.is_connected = true → g.last_data ≠ [] → get_live_data g = .ok g.last_data) := by
  refine ⟨?_, ?_, ?_⟩
  · intro h
    simp [get_live_data, h]
  · intro h hempty
    simp [get_live_data, h, hempty]
  · intro h hne
    have : g.last_data.isEmpty = false := by
      cases hl : g.last_data with
      | nil => exact absurd hl hne
      | cons a l => rfl
    simp [get_live_data, h, this]

/-- Witness instantiating C8 at the three route states: disconnected,
connected before the first cycle, and connected with data. -/
theorem live_data_route_status_witness :
    get_live_data gwDisconnected = .error 503 "Device not connected" ∧
    get_live_data gwConnectedEmpty = .error 404 "No data available" ∧
    get_live_data exampleGateway = .ok exampleGateway.last_data :=
  ⟨(live_data_route_status gwDisconnected).1 rfl,
   (live_data_route_status gwConnectedEmpty).2.1 rfl rfl,
   (live_data_route_status exampleGateway).2.2 rfl (by simp [exampleGateway])⟩

/-- C10: read_data replaces the client cache wholesale: afterwards
cached_data is exactly the fresh dict, whose keys are exactly the
configured, discovered ids whose wire read succeeded in this call (so a
model that failed this cycle is dropped), and last_read_time is stamped
unconditionally; get_cached_data reports precisely these fields. -/
theorem cache_replaced_wholesale (st : ClientState) (oracle : ReadOracle) (now : Nat)
    (dev : Device)
    (hconn : st.is_connected = true)
    (hdev : st.device = some dev) :
    ∃ res : ReadDataResult,
      read_data st oracle now none = .ok res ∧
      res.state.cached_data = res.data ∧
      (∀ m : Nat, (res.state.cached_data.lookup m).isSome = true ↔
        (m ∈ st.config.data_collection.models_to_read ∧
          (st.available_models.lookup m).isSome = true ∧
          readSuccess st oracle m = true)) ∧
      res.state.last_read_time = some now ∧
      (get_cached_data res.state).data = res.state.cached_data ∧
      (get_cached_data res.state).last_read_time = some now := by
  have hdevne : st.device ≠ none := by simp [hdev]
  have hok := read_data_ok st oracle now none hconn hdevne
  refine ⟨_, hok, rfl, ?_, rfl, rfl, rfl⟩
  intro m
  show ((read_data_loop st oracle now
      ((none : Option (List Nat)).getD st.config.data_collection.models_to_read)).1.lookup
        m).isSome = true ↔ _
  rw [read_data_loop_lookup]
  simp only [Option.getD_none]
  by_cases hP : (m ∈ st.config.data_collection.models_to_read ∧
      (st.available_models.lookup m).isSome = true ∧ readSuccess st oracle m = true)
  · simp [hP]
  · simp [hP]

/-- Witness instantiating C10 with every wire read failing at tick 11:
the cache becomes exactly the (empty) fresh dict and last_read_time is
still stamped. -/
theorem cache_replaced_wholesale_witness :
    ∃ res : ReadDataResult,
      read_data exampleClient failingOracle 11 none = .ok res ∧
      res.state.cached_data = res.data ∧
      (∀ m : Nat, (res.state.cached_data.lookup m).isSome = true ↔
        (m ∈ exampleClient.config.data_collection.models_to_read ∧
          (exampleClient.available_models.lookup m).isSome = true ∧
          readSuccess exampleClient failingOracle m = true)) ∧
      res.state.last_read_time = some 11 ∧
      (get_cached_data res.state).data = res.state.cached_data ∧
      (get_cached_data res.state).last_read_time = some 11 :=
  cache_replaced_wholesale exampleClient failingOracle 11 exampleDevice rfl rfl

/-- C2: the POST /device/disconnect route cancels the polling task but
closes the transport without ever awaiting the cancelled task, whereas
SunSpecGateway.shutdown does await it between cancelling and closing;
the route therefore violates the awaited-cancellation-before-close
ordering the claim states. -/
theorem disconnect_route_close_without_await :
    disconnect_device_events true true =
      [TeardownEvent.cancelPollingTask, TeardownEvent.closeTransport] ∧
    TeardownEvent.awaitPollingTask ∉ disconnect_device_events true true ∧
    shutdown_events true true =
      [TeardownEvent.cancelPollingTask, TeardownEvent.awaitPollingTask,
        TeardownEvent.closeTransport] := by
  refine ⟨rfl, ?_, rfl⟩
  decide

/-- Environment of a reconnect attempt that succeeds: the constructor
succeeds and the scan reports models 1 and 103. -/
def reconnectEnv : ConnectEnv :=
  { transportOk := true, scanResult := some [(1, "Common"), (103, "Inverter_3ph")] }

/-- Counterexample to C3: on an already-connected client, connect() is
not a no-op: it constructs a second transport object and runs a second
discovery scan. -/
theorem connect_while_connected_counterexample :
    exampleClient.is_connected = true ∧
    (connect exampleClient reconnectEnv).performedDiscovery = true ∧
    (connect exampleClient reconnectEnv).openedNewTransport = true :=
  ⟨rfl, rfl, rfl⟩

/-- C3 (amended): connect() on an already-connected tcp client with a
working constructor re-opens a transport and re-runs discovery (it
never consults is_connected), but the /device/connect route starts no
second polling task while one is held. -/
theorem connect_while_connected_amended (st : ClientState) (env : ConnectEnv)
    (g : GatewayState)
    (hconn : st.is_connected = true)
    (htype : st.config.connection_type = ConnectionType.tcp)
    (hp : st.config.tcp_present = true)
    (hok : env.transportOk = true)
    (hg : g.polling_task = true) :
    (connect st env).performedDiscovery = true ∧
    (connect st env).openedNewTransport = true ∧
    (connect_device g env).startedNewTask = false := by
  refine ⟨?_, ?_, ?_⟩
  · unfold connect
    rw [htype]
    simp only [hp, hok]
    cases env.scanResult with
    | none => simp
    | some tbl => simp
  · unfold connect
    rw [htype]
    simp only [hp, hok]
    cases env.scanResult with
    | none => simp
    | some tbl => simp
  · unfold connect_device
    simp [hg]

/-- Witness instantiating the amended C3 on the connected example
session. -/
theorem connect_while_connected_amended_witness :
    (connect exampleClient reconnectEnv).performedDiscovery = true ∧
    (connect exampleClient reconnectEnv).openedNewTransport = true ∧
    (connect_device exampleGateway reconnectEnv).startedNewTask = false :=
  connect_while_connected_amended exampleClient reconnectEnv exampleGateway rfl rfl rfl rfl
    rfl

/-- C4: on a connected session, requesting model 999, which the device
does not expose, yields a 200 success whose points dict is empty, not a
404: read_model returns the empty dict rather than None, so the None
test guarding the 404 branch never fires. -/
theorem unknown_model_empty_success :
    exampleDevice.models.lookup 999 = none ∧
    read_model exampleGateway.client exampleOracle 7 999 = some PyDict.empty ∧
    get_model_data exampleGateway exampleOracle 7 999 =
      .ok { model_id := 999, points := PyDict.empty, timestamp := 7 } :=
  ⟨rfl, rfl, rfl⟩

/-- Environment of a connect attempt whose transport opens but whose
discovery scan raises. -/
def discFailEnv : ConnectEnv := { transportOk := true, scanResult := none }

/-- Environment of a connect attempt whose transport constructor
itself raises. -/
def openFailEnv : ConnectEnv := { transportOk := false, scanResult := none }

/-- A freshly constructed, never-connected client. -/
def disconnectedClient : ClientState :=
  { config := exampleConfig, device := none, is_connected := false
    available_models := [], cached_data := [], last_read_time := none }

/-- Counterexample to C5: when discovery fails after the transport
opened, connect returns failure but neither closes nor discards the
partially-opened transport: the fresh device object stays attached and
no close call is issued. -/
theorem connect_failure_no_close_counterexample :
    (connect disconnectedClient discFailEnv).returned = false ∧
    (connect disconnectedClient discFailEnv).state.device = some freshDevice ∧
    (connect disconnectedClient discFailEnv).closedTransport = false :=
  ⟨rfl, rfl, rfl⟩

/-- C5 (amended): on a failure at either step of a connect attempt, on
either connection type, connect returns False with is_connected false
and never raises (the embedding is a total function into
ConnectOutcome), and it never closes a transport: when the constructor
fails no transport was opened and the device handle keeps its previous
value, and when discovery fails after the transport opened, the fresh
device object remains attached instead of being closed or discarded. -/
theorem connect_failure_amended (st : ClientState) (env : ConnectEnv)
    (hfail : env.transportOk = false ∨ env.scanResult = none) :
    (connect st env).returned = false ∧
    (connect st env).state.is_connected = false ∧
    (connect st env).closedTransport = false ∧
    ((connect st env).openedNewTransport = true →
      (connect st env).state.device = some freshDevice) ∧
    ((connect st env).openedNewTransport = false →
      (connect st env).state.device = st.device) := by
  unfold connect
  cases htype : st.config.connection_type with
  | tcp =>
    cases hp : st.config.tcp_present with
    | false => simp [hp]
    | true =>
      cases hok : env.transportOk with
      | false => simp [hp, hok]
      | true =>
        cases hscan : env.scanResult with
        | none => simp [hp, hok, hscan]
        | some tbl =>
          rcases hfail with h | h
          · rw [hok] at h
            cases h
          · rw [hscan] at h
            cases h
  | rtu =>
    cases hp : st.config.rtu_present with
    | false => simp [hp]
    | true =>
      cases hok : env.transportOk with
      | false => simp [hp, hok]
      | true =>
        cases hscan : env.scanResult with
        | none => simp [hp, hok, hscan]
        | some tbl =>
          rcases hfail with h | h
          · rw [hok] at h
            cases h
          · rw [hscan] at h
            cases h

/-- Witness instantiating the amended C5 on the fresh client, once
with a failing discovery scan (transport stays attached unclosed) and
once with a failing transport constructor (device handle unchanged). -/
theorem connect_failure_amended_witness :
    ((connect disconnectedClient discFailEnv).returned = false ∧
     (connect disconnectedClient discFailEnv).state.is_connected = false ∧
     (connect disconnectedClient discFailEnv).closedTransport = false ∧
     ((connect disconnectedClient discFailEnv).openedNewTransport = true →
       (connect disconnectedClient discFailEnv).state.device = some freshDevice) ∧
     ((connect disconnectedClient discFailEnv).openedNewTransport = false →
       (connect disconnectedClient discFailEnv).state.device = disconnectedClient.device)) ∧
    ((connect disconnectedClient openFailEnv).returned = false ∧
     (connect disconnectedClient openFailEnv).state.is_connected = false ∧
     (connect disconnectedClient openFailEnv).closedTransport = false ∧
     ((connect disconnectedClient openFailEnv).openedNewTransport = true →
       (connect disconnectedClient openFailEnv).state.device = some freshDevice) ∧
     ((connect disconnectedClient openFailEnv).openedNewTransport = false →
       (connect disconnectedClient openFailEnv).state.device = disconnectedClient.device)) :=
  ⟨connect_failure_amended disconnectedClient discFailEnv (Or.inr rfl),
   connect_failure_amended disconnectedClient openFailEnv (Or.inl rfl)⟩

/-- Counterexample to C6: after disconnect on the connected example
session, the Model Registry still holds both discovered entries instead
of being cleared. -/
theorem disconnect_keeps_registry_counterexample :
    (client_disconnect exampleClient).state.available_models =
      [(1, "Common"), (101, "Inverter")] ∧
    (client_disconnect exampleClient).state.available_models ≠ [] :=
  ⟨rfl, by decide⟩

/-- C6 (amended): disconnect never touches available_models: the
registry survives disconnect unchanged, and only the next successful
connect replaces it wholesale with the fresh scan result, so a
reconnect still re-discovers from scratch without merging. -/
theorem disconnect_registry_amended (st : ClientState) (env : ConnectEnv)
    (tbl : List (Nat × String))
    (htype : st.config.connection_type = ConnectionType.tcp)
    (hp : st.config.tcp_present = true)
    (hok : env.transportOk = true)
    (hscan : env.scanResult = some tbl) :
    (client_disconnect st).state.available_models = st.available_models ∧
    (connect (client_disconnect st).state env).state.available_models = tbl ∧
    (connect (client_disconnect st).state env).returned = true := by
  have hreg : (client_disconnect st).state.available_models = st.available_models := by
    unfold client_disconnect
    cases st.device with
    | none => rfl
    | some dev => rfl
  have hcfg : (client_disconnect st).state.config = st.config := by
    unfold client_disconnect
    cases st.device with
    | none => rfl
    | some dev => rfl
  refine ⟨hreg, ?_, ?_⟩
  · unfold connect
    rw [hcfg, htype]
    simp [hp, hok, hscan]
  · unfold connect
    rw [hcfg, htype]
    simp [hp, hok, hscan]

/-- Witness instantiating the amended C6: disconnecting the example
session keeps its two-entry registry, and a reconnect whose scan
reports a different table installs exactly that table. -/
theorem disconnect_registry_amended_witness :
    (client_disconnect exampleClient).state.available_models =
      exampleClient.available_models ∧
    (connect (client_disconnect exampleClient).state reconnectEnv).state.available_models =
      [(1, "Common"), (103, "Inverter_3ph")] ∧
    (connect (client_disconnect exampleClient).state reconnectEnv).returned = true :=
  disconnect_registry_amended exampleClient reconnectEnv [(1, "Common"), (103, "Inverter_3ph")]
    rfl rfl rfl rfl

/-- Configuration whose poll interval equals the fixed back-off. -/
def shortIntervalConfig : Config :=
  { connection_type := .tcp, tcp_present := true, rtu_present := false
    data_collection :=
      { poll_interval := 5, models_to_read := [1], max_retries := 3, retry_delay := 5 } }

/-- Gateway whose client was disconnected underneath the still-running
polling task (the task was cancelled but not awaited), so read_data in
the loop body raises the not-connected error outside any per-model
handler. -/
def shortIntervalGateway : GatewayState :=
  { client :=
      { config := shortIntervalConfig, device := none, is_connected := false
        available_models := [], cached_data := [], last_read_time := none }
    is_connected := false, last_data := [], polling_task := true }

/-- Counterexample to C9: with poll_interval configured to 5, an error
in the loop body makes the loop sleep the fixed back-off 5, which is
neither distinct from nor strictly shorter than the configured poll
interval. -/
theorem polling_backoff_counterexample :
    polling_iteration shortIntervalGateway failingOracle 0 false =
      .continueAfter shortIntervalGateway pollingBackoff ∧
    pollingBackoff = shortIntervalGateway.client.config.data_collection.poll_interval :=
  ⟨rfl, rfl⟩

/-- C9 (amended): an exception escaping the loop body makes the loop
sleep the fixed back-off of 5 seconds and continue; the back-off is
strictly shorter than the default 30-second poll interval but not than
every configurable one; and the loop exits only on cancellation. -/
theorem polling_backoff_amended (g : GatewayState) (oracle : ReadOracle) (now : Nat)
    (e : String)
    (herr : read_data g.client oracle now
        (some g.client.config.data_collection.models_to_read) = .error e) :
    polling_iteration g oracle now false = .continueAfter g pollingBackoff ∧
    polling_iteration g oracle now true = .exitLoop ∧
    pollingBackoff = 5 ∧
    pollingBackoff < defaultDataCollectionConfig.poll_interval ∧
    (∀ c : Bool, polling_iteration g oracle now c = .exitLoop → c = true) := by
  refine ⟨polling_iteration_error g oracle now e herr, rfl, rfl, by decide, ?_⟩
  intro c hc
  cases c with
  | true => rfl
  | false =>
    rw [polling_iteration_error g oracle now e herr] at hc
    cases hc

/-- Witness instantiating the amended C9 on the short-interval gateway
whose read_data raises the not-connected error. -/
theorem polling_backoff_amended_witness :
    polling_iteration shortIntervalGateway failingOracle 0 false =
      .continueAfter shortIntervalGateway pollingBackoff ∧
    polling_iteration shortIntervalGateway failingOracle 0 true = .exitLoop ∧
    pollingBackoff = 5 ∧
    pollingBackoff < defaultDataCollectionConfig.poll_interval ∧
    (∀ c : Bool, polling_iteration shortIntervalGateway failingOracle 0 c = .exitLoop →
      c = true) :=
  polling_backoff_amended shortIntervalGateway failingOracle 0 "Device not connected" rfl

end SunspecGateway
